import Mathlib

/-!
Verification of the persistence/business-logic layer in backend/crud.py.

The relational state is modelled as lists of rows; every crud function that
writes takes the state and returns the updated state together with its
result value.  Numeric columns are modelled over the exact rationals ℚ,
timestamps over ℤ, identifiers over ℕ.  Python int(x) is truncation toward
zero; Python round(x, 1) is round-half-to-even at one decimal place.
-/

set_option autoImplicit false

namespace Replanet

/-- Transport mode enum.  Modelled from the spec: the member list lives in
schemas.py, which is not part of the shown source; crud.py only ever
compares modes for equality and singles out the wildcard ANY, so one
constructor per named mode plus ANY is a faithful model. -/
inductive TransportMode where
  | ANY
  | named (s : String)
deriving DecidableEq

/-- Challenge scope enum.  Modelled from the spec: member list from
schemas.py (not in the shown source); crud.py only tests equality with
PERSONAL. -/
inductive ChallengeScope where
  | PERSONAL
  | named (s : String)
deriving DecidableEq

/-- Challenge completion type enum (AUTO vs manual). -/
inductive ChallengeCompletionType where
  | AUTO
  | MANUAL
deriving DecidableEq

/-- Challenge status enum.  Modelled from the spec: ACTIVE/COMPLETED/…,
further members from models.py (not in the shown source). -/
inductive ChallengeStatus where
  | ACTIVE
  | COMPLETED
  | named (s : String)
deriving DecidableEq

/-- Challenge goal type enum.  Modelled from the spec: the three handled
members are CO2_SAVED, DISTANCE_KM, TRIP_COUNT; `named s` stands for any
further member of the enum in schemas.py (not in the shown source), which
crud.py leaves unhandled. -/
inductive ChallengeGoalType where
  | CO2_SAVED
  | DISTANCE_KM
  | TRIP_COUNT
  | named (s : String)
deriving DecidableEq

/-- Credit ledger entry type; crud.py only ever writes EARN. -/
inductive CreditType where
  | EARN
  | named (s : String)
deriving DecidableEq

structure User where
  user_id : Nat
  username : String
  email : String
  password_hash : String
  role : String
  user_group_id : Option Nat
deriving DecidableEq

structure UserCreate where
  username : String
  email : String
  password_hash : String
  role : String
  user_group_id : Option Nat
deriving DecidableEq

structure Challenge where
  challenge_id : Nat
  title : String
  description : String
  scope : ChallengeScope
  completion_type : ChallengeCompletionType
  target_mode : TransportMode
  goal_type : ChallengeGoalType
  goal_target_value : ℚ
  start_at : Int
  end_at : Int
  reward : String
  created_by : Nat
  status : ChallengeStatus
deriving DecidableEq

/-- Membership join row.  Modelled from the spec: models.py (not in the
shown source) declares the columns; the spec records that the completion
flag of a fresh membership is false. -/
structure ChallengeMember where
  member_id : Nat
  user_id : Nat
  challenge_id : Nat
  is_completed : Bool
deriving DecidableEq

structure MobilityLog where
  log_id : Nat
  user_id : Nat
  mode : TransportMode
  distance_km : ℚ
  started_at : Int
  ended_at : Int
  co2_saved_g : ℚ
  points_earned : Int
  description : String
  start_point : Option String
  end_point : Option String
deriving DecidableEq

structure MobilityLogCreate where
  user_id : Nat
  mode : TransportMode
  distance_km : ℚ
  started_at : Int
  ended_at : Int
  description : String
  start_point : Option String
  end_point : Option String
deriving DecidableEq

structure CarbonFactor where
  mode : TransportMode
  g_per_km : ℚ
  valid_from : Int
  valid_to : Int
deriving DecidableEq

structure CreditsLedgerEntry where
  entry_id : Nat
  user_id : Nat
  ref_log_id : Option Nat
  type : CreditType
  points : Int
  reason : String
deriving DecidableEq

/-- Garden watering log row; only the user_id column is touched by crud.py
(delete_user), the remaining columns of models.py are abstracted into
row_id. -/
structure GardenWateringLog where
  row_id : Nat
  user_id : Nat
deriving DecidableEq

/-- User garden row; only the user_id column is touched by crud.py. -/
structure UserGarden where
  row_id : Nat
  user_id : Nat
deriving DecidableEq

/-- User achievement row; only the user_id column is touched by crud.py. -/
structure UserAchievement where
  row_id : Nat
  user_id : Nat
deriving DecidableEq

/-- Notification row; only the user_id column is touched by crud.py. -/
structure Notification where
  row_id : Nat
  user_id : Nat
deriving DecidableEq

/-- Raw-ingest row; only the user_id column is touched by crud.py. -/
structure IngestRaw where
  row_id : Nat
  user_id : Nat
deriving DecidableEq

/-- The relational state visible to crud.py, one list per table, plus the
autoincrement counters that hand out fresh primary keys. -/
structure DB where
  users : List User
  challenges : List Challenge
  challengeMembers : List ChallengeMember
  mobilityLogs : List MobilityLog
  carbonFactors : List CarbonFactor
  creditsLedger : List CreditsLedgerEntry
  gardenWateringLogs : List GardenWateringLog
  userGardens : List UserGarden
  userAchievements : List UserAchievement
  notifications : List Notification
  ingestRaw : List IngestRaw
  nextUserId : Nat
  nextMemberId : Nat
  nextLogId : Nat
deriving DecidableEq

/-- Python int(x) on a real value: truncation toward zero. -/
def pyInt (x : ℚ) : Int :=
  if 0 ≤ x then ⌊x⌋ else ⌈x⌉

/-- Python round(x) to the nearest integer, ties to the even integer. -/
def pyRound (x : ℚ) : Int :=
  if x - ⌊x⌋ < 1 / 2 then ⌊x⌋
  else if 1 / 2 < x - ⌊x⌋ then ⌊x⌋ + 1
  else if ⌊x⌋ % 2 = 0 then ⌊x⌋ else ⌊x⌋ + 1

/-- Python round(x, 1): round to one decimal place, ties to even. -/
def round1 (x : ℚ) : ℚ :=
  (pyRound (x * 10) : ℚ) / 10

/-- The membership query filter user_id == uid AND challenge_id == cid. -/
def memberPred (uid cid : Nat) (m : ChallengeMember) : Bool :=
  decide (m.user_id = uid) && decide (m.challenge_id = cid)

/-- Builds the batch of ChallengeMember rows that create_user adds, one per
default challenge, with consecutive fresh primary keys and the completion
flag at its default false. -/
def mkMembers (uid : Nat) : Nat → List Challenge → List ChallengeMember
  | _, [] => []
  | nextId, c :: rest =>
    { member_id := nextId, user_id := uid, challenge_id := c.challenge_id,
      is_completed := false } :: mkMembers uid (nextId + 1) rest

/-- crud.create_user: inserts the user, then enrolls it in every challenge
whose scope is PERSONAL by inserting one ChallengeMember per such
challenge. -/
def create_user (db : DB) (user : UserCreate) : DB × User :=
  let db_user : User :=
    { user_id := db.nextUserId, username := user.username, email := user.email,
      password_hash := user.password_hash, role := user.role,
      user_group_id := user.user_group_id }
  let default_challenges :=
    db.challenges.filter (fun c => decide (c.scope = ChallengeScope.PERSONAL))
  let new_members := mkMembers db_user.user_id db.nextMemberId default_challenges
  ({ db with
      users := db.users ++ [db_user],
      challengeMembers := db.challengeMembers ++ new_members,
      nextUserId := db.nextUserId + 1,
      nextMemberId := db.nextMemberId + default_challenges.length },
   db_user)

/-- crud.delete_user: looks the user up by id; if absent returns none and
writes nothing, otherwise removes every dependent row referencing the user
and then the user row itself. -/
def delete_user (db : DB) (user_id : Nat) : DB × Option User :=
  match db.users.find? (fun u => decide (u.user_id = user_id)) with
  | none => (db, none)
  | some user =>
    ({ db with
        mobilityLogs := db.mobilityLogs.filter (fun l => decide (l.user_id ≠ user_id)),
        creditsLedger := db.creditsLedger.filter (fun e => decide (e.user_id ≠ user_id)),
        challengeMembers := db.challengeMembers.filter (fun m => decide (m.user_id ≠ user_id)),
        gardenWateringLogs := db.gardenWateringLogs.filter (fun g => decide (g.user_id ≠ user_id)),
        userGardens := db.userGardens.filter (fun g => decide (g.user_id ≠ user_id)),
        challenges := db.challenges.filter (fun c => decide (c.created_by ≠ user_id)),
        userAchievements := db.userAchievements.filter (fun a => decide (a.user_id ≠ user_id)),
        notifications := db.notifications.filter (fun n => decide (n.user_id ≠ user_id)),
        ingestRaw := db.ingestRaw.filter (fun r => decide (r.user_id ≠ user_id)),
        users := db.users.eraseP (fun u => decide (u.user_id = user_id)) },
     some user)

/-- crud.authenticate_user: finds the first user whose username or email
equals the identifier, then requires an exact match of the stored
password_hash. -/
def authenticate_user (db : DB) (username password : String) : Option User :=
  match db.users.find? (fun u => decide (u.username = username) || decide (u.email = username)) with
  | none => none
  | some user => if user.password_hash = password then some user else none

/-- The CarbonFactor lookup inside crud.create_mobility_log: first row with
the log's mode whose validity window contains the trip interval. -/
def findCarbonFactor (db : DB) (mode : TransportMode) (started_at ended_at : Int) :
    Option CarbonFactor :=
  db.carbonFactors.find? (fun f =>
    decide (f.mode = mode) && decide (f.valid_from ≤ started_at) &&
      decide (ended_at ≤ f.valid_to))

/-- crud.create_mobility_log: derives co2_saved_g from the matching carbon
factor (0 when none matches), points_earned as int(co2_saved_g / 100), and
inserts the log row. -/
def create_mobility_log (db : DB) (log : MobilityLogCreate) : DB × MobilityLog :=
  let carbon_factor := findCarbonFactor db log.mode log.started_at log.ended_at
  let co2_saved_g : ℚ :=
    match carbon_factor with
    | none => 0
    | some f => log.distance_km * f.g_per_km
  let points_earned : Int := pyInt (co2_saved_g / 100)
  let db_log : MobilityLog :=
    { log_id := db.nextLogId, user_id := log.user_id, mode := log.mode,
      distance_km := log.distance_km, started_at := log.started_at,
      ended_at := log.ended_at, co2_saved_g := co2_saved_g,
      points_earned := points_earned, description := log.description,
      start_point := log.start_point, end_point := log.end_point }
  ({ db with mobilityLogs := db.mobilityLogs ++ [db_log], nextLogId := db.nextLogId + 1 },
   db_log)

/-- crud.join_challenge: returns the existing membership when the pair is
already joined, otherwise inserts a fresh ChallengeMember row. -/
def join_challenge (db : DB) (user_id challenge_id : Nat) : DB × ChallengeMember :=
  match db.challengeMembers.find? (memberPred user_id challenge_id) with
  | some existing_member => (db, existing_member)
  | none =>
    let db_member : ChallengeMember :=
      { member_id := db.nextMemberId, user_id := user_id,
        challenge_id := challenge_id, is_completed := false }
    ({ db with
        challengeMembers := db.challengeMembers ++ [db_member],
        nextMemberId := db.nextMemberId + 1 },
     db_member)

/-- The log filter of crud.calculate_challenge_progress: the user's logs
within the challenge window, restricted to the target mode unless that is
the wildcard ANY. -/
def logMatches (uid : Nat) (c : Challenge) (l : MobilityLog) : Bool :=
  decide (l.user_id = uid) && decide (c.start_at ≤ l.started_at) &&
    decide (l.ended_at ≤ c.end_at) &&
    (if c.target_mode = TransportMode.ANY then true else decide (l.mode = c.target_mode))

/-- The goal_type-selected aggregate of crud.calculate_challenge_progress;
the empty sum is 0, matching the treatment of a NULL SQL aggregate. -/
def achievedValue (db : DB) (uid : Nat) (c : Challenge) : ℚ :=
  let logs := db.mobilityLogs.filter (logMatches uid c)
  match c.goal_type with
  | ChallengeGoalType.CO2_SAVED => (logs.map (fun l => l.co2_saved_g)).sum
  | ChallengeGoalType.DISTANCE_KM => (logs.map (fun l => l.distance_km)).sum
  | ChallengeGoalType.TRIP_COUNT => (logs.length : ℚ)
  | ChallengeGoalType.named _ => 0

/-- crud.calculate_challenge_progress: percentage of the goal achieved,
0 when the goal target is not positive, rounded to one decimal place. -/
def calculate_challenge_progress (db : DB) (uid : Nat) (c : Challenge) : ℚ :=
  let total_achieved_value := achievedValue db uid c
  let progress : ℚ :=
    if 0 < c.goal_target_value then total_achieved_value / c.goal_target_value * 100 else 0
  round1 progress

/-- The guard of crud.update_challenge_status_if_completed: auto completion
type, progress at least 100, currently active. -/
def completionGuard (c : Challenge) (progress : ℚ) : Prop :=
  c.completion_type = ChallengeCompletionType.AUTO ∧ 100 ≤ progress ∧
    c.status = ChallengeStatus.ACTIVE

instance (c : Challenge) (progress : ℚ) : Decidable (completionGuard c progress) := by
  unfold completionGuard
  infer_instance

/-- Sets is_completed on the first membership row matching the pair, the
list mutation performed by crud.update_challenge_status_if_completed when
the member row exists; leaves the list unchanged when none matches. -/
def setMemberCompleted (uid cid : Nat) : List ChallengeMember → List ChallengeMember
  | [] => []
  | m :: rest =>
    if memberPred uid cid m then { m with is_completed := true } :: rest
    else m :: setMemberCompleted uid cid rest

/-- crud.update_challenge_status_if_completed: when the guard holds, writes
status COMPLETED back to the challenge row and marks the caller's
membership row completed when it exists; otherwise changes nothing. -/
def update_challenge_status_if_completed (db : DB) (c : Challenge) (progress : ℚ)
    (user_id : Nat) : DB × Challenge :=
  if completionGuard c progress then
    let c' := { c with status := ChallengeStatus.COMPLETED }
    ({ db with
        challenges := db.challenges.map
          (fun x => if x.challenge_id = c.challenge_id then c' else x),
        challengeMembers := setMemberCompleted user_id c.challenge_id db.challengeMembers },
     c')
  else (db, c)

/-- crud.update_personal_challenge_progress: looks up the membership row and
the challenge row; returns none when either is absent and the membership
row unchanged otherwise; every field-updating statement in its body is
commented out, so no state is written and progress_increment is unused. -/
def update_personal_challenge_progress (db : DB) (user_id challenge_id : Nat)
    (progress_increment : ℚ) : DB × Option ChallengeMember :=
  let challenge_member := db.challengeMembers.find? (memberPred user_id challenge_id)
  let challenge := db.challenges.find? (fun c => decide (c.challenge_id = challenge_id))
  match challenge_member, challenge with
  | some m, some _ => (db, some m)
  | _, _ => (db, none)

/-! Shared helper lemmas -/

theorem round1_zero : round1 0 = 0 := by
  norm_num [round1, pyRound]

theorem round1_hundred : round1 100 = 100 := by
  norm_num [round1, pyRound]

theorem pyInt_nonneg_eq_floor (x : ℚ) (h : 0 ≤ x) : pyInt x = ⌊x⌋ := by
  unfold pyInt
  rw [if_pos h]

/-! Claim theorems and witnesses -/

/-- Claim C1: for every call to create_mobility_log with distance d ≥ 0
where the CarbonFactor lookup for the log's mode finds a row with
valid_from ≤ started_at and valid_to ≥ ended_at and rate r ≥ 0, the
returned log has co2_saved_g = d × r and points_earned =
floor(co2_saved_g / 100), truncated toward zero (the two coincide for the
nonnegative value here). -/
theorem create_mobility_log_with_factor (db : DB) (log : MobilityLogCreate)
    (f : CarbonFactor)
    (hf : findCarbonFactor db log.mode log.started_at log.ended_at = some f)
    (hd : 0 ≤ log.distance_km) (hr : 0 ≤ f.g_per_km) :
    (create_mobility_log db log).2.co2_saved_g = log.distance_km * f.g_per_km ∧
    (create_mobility_log db log).2.points_earned =
      ⌊(create_mobility_log db log).2.co2_saved_g / 100⌋ := by
  have h1 : (create_mobility_log db log).2.co2_saved_g =
      log.distance_km * f.g_per_km := by
    simp [create_mobility_log, hf]
  have h2 : (create_mobility_log db log).2.points_earned =
      pyInt ((log.distance_km * f.g_per_km) / 100) := by
    simp [create_mobility_log, hf]
  refine ⟨h1, ?_⟩
  rw [h2, h1, pyInt_nonneg_eq_floor]
  positivity

def sampleFactor : CarbonFactor :=
  { mode := TransportMode.named ("WALK"), g_per_km := 120, valid_from := -5,
    valid_to := 5 }

def sampleLogReq : MobilityLogCreate :=
  { user_id := 7, mode := TransportMode.named ("WALK"), distance_km := 10,
    started_at := 0, ended_at := 1, description := ("walk to work"),
    start_point := none, end_point := none }

def sampleDB1 : DB :=
  { users := [], challenges := [], challengeMembers := [], mobilityLogs := [],
    carbonFactors := [sampleFactor], creditsLedger := [],
    gardenWateringLogs := [], userGardens := [], userAchievements := [],
    notifications := [], ingestRaw := [], nextUserId := 1, nextMemberId := 1,
    nextLogId := 1 }

/-- Witness for C1 at a concrete state: the spec's own example,
distance_km = 10 and g_per_km = 120. -/
theorem create_mobility_log_with_factor_witness :
    (create_mobility_log sampleDB1 sampleLogReq).2.co2_saved_g =
      sampleLogReq.distance_km * sampleFactor.g_per_km ∧
    (create_mobility_log sampleDB1 sampleLogReq).2.points_earned =
      ⌊(create_mobility_log sampleDB1 sampleLogReq).2.co2_saved_g / 100⌋ :=
  create_mobility_log_with_factor sampleDB1 sampleLogReq sampleFactor
    (by rfl) (by norm_num [sampleLogReq]) (by norm_num [sampleFactor])

/-- Claim C6: when no CarbonFactor row matches the log's mode with a
validity window containing the trip interval, the log is still created
(appended to the table) with co2_saved_g = 0 and points_earned = 0. -/
theorem create_mobility_log_no_factor (db : DB) (log : MobilityLogCreate)
    (h : findCarbonFactor db log.mode log.started_at log.ended_at = none) :
    (create_mobility_log db log).2.co2_saved_g = 0 ∧
    (create_mobility_log db log).2.points_earned = 0 ∧
    (create_mobility_log db log).1.mobilityLogs =
      db.mobilityLogs ++ [(create_mobility_log db log).2] := by
  refine ⟨?_, ?_, rfl⟩
  · simp [create_mobility_log, h]
  · simp [create_mobility_log, h, pyInt]

def sampleDB6 : DB :=
  { users := [], challenges := [], challengeMembers := [], mobilityLogs := [],
    carbonFactors := [], creditsLedger := [], gardenWateringLogs := [],
    userGardens := [], userAchievements := [], notifications := [],
    ingestRaw := [], nextUserId := 1, nextMemberId := 1, nextLogId := 1 }

/-- Witness for C6 at a concrete state with an empty CarbonFactor table. -/
theorem create_mobility_log_no_factor_witness :
    (create_mobility_log sampleDB6 sampleLogReq).2.co2_saved_g = 0 ∧
    (create_mobility_log sampleDB6 sampleLogReq).2.points_earned = 0 ∧
    (create_mobility_log sampleDB6 sampleLogReq).1.mobilityLogs =
      sampleDB6.mobilityLogs ++ [(create_mobility_log sampleDB6 sampleLogReq).2] :=
  create_mobility_log_no_factor sampleDB6 sampleLogReq (by rfl)

/-- Claim C2: calculate_challenge_progress returns 0 when the goal target
is not positive, and otherwise round(100 × achieved / target, 1) where
achieved is the goal_type-selected aggregate achievedValue (the window and
mode filtered aggregate of the user's logs, empty aggregate counting as
zero); achieved exactly equal to the target yields 100. -/
theorem calculate_challenge_progress_spec (db : DB) (uid : Nat) (c : Challenge) :
    (c.goal_target_value ≤ 0 → calculate_challenge_progress db uid c = 0) ∧
    (0 < c.goal_target_value →
      calculate_challenge_progress db uid c =
        round1 (100 * achievedValue db uid c / c.goal_target_value)) ∧
    (0 < c.goal_target_value → achievedValue db uid c = c.goal_target_value →
      calculate_challenge_progress db uid c = 100) := by
  refine ⟨?_, ?_, ?_⟩
  · intro h
    have hn : ¬ 0 < c.goal_target_value := not_lt.mpr h
    simp only [calculate_challenge_progress, if_neg hn]
    exact round1_zero
  · intro h
    simp only [calculate_challenge_progress, if_pos h]
    congr 1
    ring
  · intro h he
    simp only [calculate_challenge_progress, if_pos h, he]
    rw [div_self (ne_of_gt h), one_mul]
    exact round1_hundred

def sampleChallenge2 : Challenge :=
  { challenge_id := 3, title := ("five trips"), description := ("take five trips"),
    scope := ChallengeScope.PERSONAL, completion_type := ChallengeCompletionType.AUTO,
    target_mode := TransportMode.ANY, goal_type := ChallengeGoalType.TRIP_COUNT,
    goal_target_value := 5, start_at := 0, end_at := 100, reward := ("badge"),
    created_by := 2, status := ChallengeStatus.ACTIVE }

def sampleTrip (i : Nat) : MobilityLog :=
  { log_id := i, user_id := 1, mode := TransportMode.named ("BIKE"),
    distance_km := 2, started_at := 10, ended_at := 20, co2_saved_g := 240,
    points_earned := 2, description := ("ride"), start_point := none,
    end_point := none }

def sampleDB2 : DB :=
  { users := [], challenges := [sampleChallenge2], challengeMembers := [],
    mobilityLogs := [sampleTrip 1, sampleTrip 2, sampleTrip 3],
    carbonFactors := [], creditsLedger := [], gardenWateringLogs := [],
    userGardens := [], userAchievements := [], notifications := [],
    ingestRaw := [], nextUserId := 2, nextMemberId := 1, nextLogId := 4 }

/-- Witness for C2 at a concrete state: the spec's own example, a
TRIP_COUNT goal of 5 with 3 matching logs gives progress 60.0. -/
theorem calculate_challenge_progress_spec_witness :
    calculate_challenge_progress sampleDB2 1 sampleChallenge2 = 60 := by
  have h := (calculate_challenge_progress_spec sampleDB2 1 sampleChallenge2).2.1
    (by norm_num [sampleChallenge2])
  rw [h]
  norm_num [achievedValue, logMatches, sampleDB2, sampleChallenge2, sampleTrip,
    round1, pyRound]

/-- Claim C10: for every challenge whose goal_type is none of CO2_SAVED,
DISTANCE_KM and TRIP_COUNT, calculate_challenge_progress returns 0
regardless of the user's logs and of the goal target. -/
theorem calculate_challenge_progress_unhandled_goal (db : DB) (uid : Nat)
    (c : Challenge)
    (h1 : c.goal_type ≠ ChallengeGoalType.CO2_SAVED)
    (h2 : c.goal_type ≠ ChallengeGoalType.DISTANCE_KM)
    (h3 : c.goal_type ≠ ChallengeGoalType.TRIP_COUNT) :
    calculate_challenge_progress db uid c = 0 := by
  have ha : achievedValue db uid c = 0 := by
    unfold achievedValue
    cases hg : c.goal_type with
    | CO2_SAVED => exact absurd hg h1
    | DISTANCE_KM => exact absurd hg h2
    | TRIP_COUNT => exact absurd hg h3
    | named s => rfl
  simp only [calculate_challenge_progress, ha]
  by_cases ht : 0 < c.goal_target_value
  · rw [if_pos ht, zero_div, zero_mul]
    exact round1_zero
  · rw [if_neg ht]
    exact round1_zero

def sampleChallenge10 : Challenge :=
  { challenge_id := 4, title := ("streak"), description := ("a streak goal"),
    scope := ChallengeScope.PERSONAL, completion_type := ChallengeCompletionType.AUTO,
    target_mode := TransportMode.ANY,
    goal_type := ChallengeGoalType.named ("STREAK_DAYS"),
    goal_target_value := 5, start_at := 0, end_at := 100, reward := ("badge"),
    created_by := 2, status := ChallengeStatus.ACTIVE }

/-- Witness for C10 at a concrete state: an unhandled STREAK_DAYS goal type
yields progress 0 even with matching logs and a positive target. -/
theorem calculate_challenge_progress_unhandled_goal_witness :
    calculate_challenge_progress sampleDB2 1 sampleChallenge10 = 0 :=
  calculate_challenge_progress_unhandled_goal sampleDB2 1 sampleChallenge10
    (by simp [sampleChallenge10]) (by simp [sampleChallenge10])
    (by simp [sampleChallenge10])

theorem memberPred_set_true (uid cid : Nat) (m : ChallengeMember) :
    memberPred uid cid { m with is_completed := true } = memberPred uid cid m :=
  rfl

theorem find?_setMemberCompleted (uid cid : Nat) (ms : List ChallengeMember) :
    (setMemberCompleted uid cid ms).find? (memberPred uid cid) =
      (ms.find? (memberPred uid cid)).map
        (fun m => { m with is_completed := true }) := by
  induction ms with
  | nil => rfl
  | cons m rest ih =>
    by_cases h : memberPred uid cid m
    · rw [setMemberCompleted, if_pos h, List.find?_cons_of_pos _ h,
        List.find?_cons_of_pos]
      · rfl
      · rw [memberPred_set_true]
        exact h
    · rw [setMemberCompleted, if_neg h, List.find?_cons_of_neg _ h,
        List.find?_cons_of_neg _ h, ih]

/-- Claim C3: update_challenge_status_if_completed changes no state and
returns the challenge unchanged when completion_type is not AUTO or status
is not ACTIVE or progress < 100; when all three guards hold it sets the
status to COMPLETED and marks the caller's membership row completed when
that row exists, the transition is one-way, and a second call after
completion is a no-op. -/
theorem update_challenge_status_if_completed_spec (db : DB) (c : Challenge)
    (progress : ℚ) (user_id : Nat) :
    (¬ completionGuard c progress →
      update_challenge_status_if_completed db c progress user_id = (db, c)) ∧
    (completionGuard c progress →
      (update_challenge_status_if_completed db c progress user_id).2 =
        { c with status := ChallengeStatus.COMPLETED } ∧
      (update_challenge_status_if_completed db c progress user_id).1.challengeMembers.find?
          (memberPred user_id c.challenge_id) =
        (db.challengeMembers.find? (memberPred user_id c.challenge_id)).map
          (fun m => { m with is_completed := true }) ∧
      (∀ (p2 : ℚ) (u2 : Nat),
        update_challenge_status_if_completed
          (update_challenge_status_if_completed db c progress user_id).1
          (update_challenge_status_if_completed db c progress user_id).2 p2 u2 =
        update_challenge_status_if_completed db c progress user_id)) ∧
    ((update_challenge_status_if_completed db c progress user_id).2.status =
        c.status ∨
      (c.status = ChallengeStatus.ACTIVE ∧
        (update_challenge_status_if_completed db c progress user_id).2.status =
          ChallengeStatus.COMPLETED)) := by
  refine ⟨?_, ?_, ?_⟩
  · intro h
    simp only [update_challenge_status_if_completed, if_neg h]
  · intro h
    simp only [update_challenge_status_if_completed, if_pos h]
    refine ⟨trivial, find?_setMemberCompleted user_id c.challenge_id db.challengeMembers, ?_⟩
    intro p2 u2
    have hng : ¬ completionGuard { c with status := ChallengeStatus.COMPLETED } p2 := by
      simp [completionGuard]
    simp only [update_challenge_status_if_completed, if_neg hng]
  · by_cases h : completionGuard c progress
    · right
      refine ⟨h.2.2, ?_⟩
      simp only [update_challenge_status_if_completed, if_pos h]
    · left
      simp only [update_challenge_status_if_completed, if_neg h]

def sampleChallenge3 : Challenge :=
  { challenge_id := 3, title := ("five trips"), description := ("take five trips"),
    scope := ChallengeScope.PERSONAL, completion_type := ChallengeCompletionType.AUTO,
    target_mode := TransportMode.ANY, goal_type := ChallengeGoalType.TRIP_COUNT,
    goal_target_value := 5, start_at := 0, end_at := 100, reward := ("badge"),
    created_by := 2, status := ChallengeStatus.ACTIVE }

def sampleMember3 : ChallengeMember :=
  { member_id := 1, user_id := 1, challenge_id := 3, is_completed := false }

def sampleDB3 : DB :=
  { users := [], challenges := [sampleChallenge3], challengeMembers := [sampleMember3],
    mobilityLogs := [], carbonFactors := [], creditsLedger := [],
    gardenWateringLogs := [], userGardens := [], userAchievements := [],
    notifications := [], ingestRaw := [], nextUserId := 2, nextMemberId := 2,
    nextLogId := 1 }

/-- Witness for C3 at a concrete state: an AUTO, ACTIVE challenge at
progress 100 with an existing membership row. -/
theorem update_challenge_status_if_completed_spec_witness :
    (update_challenge_status_if_completed sampleDB3 sampleChallenge3 100 1).2 =
      { sampleChallenge3 with status := ChallengeStatus.COMPLETED } ∧
    (update_challenge_status_if_completed sampleDB3 sampleChallenge3 100 1).1.challengeMembers.find?
        (memberPred 1 sampleChallenge3.challenge_id) =
      (sampleDB3.challengeMembers.find? (memberPred 1 sampleChallenge3.challenge_id)).map
        (fun m => { m with is_completed := true }) ∧
    (∀ (p2 : ℚ) (u2 : Nat),
      update_challenge_status_if_completed
        (update_challenge_status_if_completed sampleDB3 sampleChallenge3 100 1).1
        (update_challenge_status_if_completed sampleDB3 sampleChallenge3 100 1).2 p2 u2 =
      update_challenge_status_if_completed sampleDB3 sampleChallenge3 100 1) :=
  (update_challenge_status_if_completed_spec sampleDB3 sampleChallenge3 100 1).2.1
    (by refine ⟨rfl, le_refl 100, rfl⟩)

theorem join_challenge_of_found {db : DB} {user_id challenge_id : Nat}
    {m : ChallengeMember}
    (hf : db.challengeMembers.find? (memberPred user_id challenge_id) = some m) :
    join_challenge db user_id challenge_id = (db, m) := by
  simp only [join_challenge, hf]

theorem join_challenge_members_of_not_found {db : DB} {user_id challenge_id : Nat}
    (hf : db.challengeMembers.find? (memberPred user_id challenge_id) = none) :
    (join_challenge db user_id challenge_id).1.challengeMembers =
      db.challengeMembers ++ [(join_challenge db user_id challenge_id).2] := by
  simp only [join_challenge, hf]

theorem join_challenge_ret_of_not_found {db : DB} {user_id challenge_id : Nat}
    (hf : db.challengeMembers.find? (memberPred user_id challenge_id) = none) :
    (join_challenge db user_id challenge_id).2 =
      { member_id := db.nextMemberId, user_id := user_id,
        challenge_id := challenge_id, is_completed := false } := by
  simp only [join_challenge, hf]

/-- Claim C4: join_challenge is idempotent.  From any state respecting the
uniqueness invariant on (user_id, challenge_id) pairs, two successive
calls leave exactly one membership row for the pair and both calls return
the same membership row. -/
theorem join_challenge_idempotent (db : DB) (user_id challenge_id : Nat)
    (h : db.challengeMembers.countP (memberPred user_id challenge_id) ≤ 1) :
    (join_challenge (join_challenge db user_id challenge_id).1 user_id
        challenge_id).1.challengeMembers.countP (memberPred user_id challenge_id) = 1 ∧
    (join_challenge (join_challenge db user_id challenge_id).1 user_id
        challenge_id).2 = (join_challenge db user_id challenge_id).2 := by
  cases hf : db.challengeMembers.find? (memberPred user_id challenge_id) with
  | some m =>
    have h1 := join_challenge_of_found hf
    have hsec : join_challenge (join_challenge db user_id challenge_id).1 user_id
        challenge_id = ((join_challenge db user_id challenge_id).1, m) := by
      apply join_challenge_of_found
      rw [h1]
      exact hf
    constructor
    · rw [hsec, h1]
      show db.challengeMembers.countP (memberPred user_id challenge_id) = 1
      have hpos : 0 < db.challengeMembers.countP (memberPred user_id challenge_id) :=
        List.countP_pos_iff.mpr
          ⟨m, List.mem_of_find?_eq_some hf, List.find?_some hf⟩
      omega
    · rw [hsec, h1]
  | none =>
    have hzero : db.challengeMembers.countP (memberPred user_id challenge_id) = 0 :=
      List.countP_eq_zero.mpr (List.find?_eq_none.mp hf)
    have hms := join_challenge_members_of_not_found hf
    have hpred : memberPred user_id challenge_id
        (join_challenge db user_id challenge_id).2 = true := by
      rw [join_challenge_ret_of_not_found hf]
      simp [memberPred]
    have hf' : (join_challenge db user_id challenge_id).1.challengeMembers.find?
        (memberPred user_id challenge_id) =
        some (join_challenge db user_id challenge_id).2 := by
      rw [hms, List.find?_append, hf]
      simp [hpred]
    have hsec := join_challenge_of_found hf'
    rw [hsec]
    constructor
    · rw [hms, List.countP_append, hzero]
      simp [hpred]
    · rfl

def sampleDB4 : DB :=
  { users := [], challenges := [], challengeMembers := [], mobilityLogs := [],
    carbonFactors := [], creditsLedger := [], gardenWateringLogs := [],
    userGardens := [], userAchievements := [], notifications := [],
    ingestRaw := [], nextUserId := 2, nextMemberId := 1, nextLogId := 1 }

/-- Witness for C4 at a concrete state with no membership rows. -/
theorem join_challenge_idempotent_witness :
    (join_challenge (join_challenge sampleDB4 1 3).1 1
        3).1.challengeMembers.countP (memberPred 1 3) = 1 ∧
    (join_challenge (join_challenge sampleDB4 1 3).1 1 3).2 =
      (join_challenge sampleDB4 1 3).2 :=
  join_challenge_idempotent sampleDB4 1 3 (by simp [sampleDB4])

theorem mkMembers_length (uid : Nat) :
    ∀ (n : Nat) (cs : List Challenge), (mkMembers uid n cs).length = cs.length := by
  intro n cs
  induction cs generalizing n with
  | nil => rfl
  | cons c rest ih =>
    rw [mkMembers, List.length_cons, List.length_cons, ih]

theorem mkMembers_map_challenge_id (uid : Nat) :
    ∀ (n : Nat) (cs : List Challenge),
      (mkMembers uid n cs).map (fun m => m.challenge_id) =
        cs.map (fun c => c.challenge_id) := by
  intro n cs
  induction cs generalizing n with
  | nil => rfl
  | cons c rest ih =>
    rw [mkMembers, List.map_cons, List.map_cons, ih]

theorem mkMembers_mem (uid : Nat) :
    ∀ (n : Nat) (cs : List Challenge) (m : ChallengeMember),
      m ∈ mkMembers uid n cs → m.user_id = uid ∧ m.is_completed = false := by
  intro n cs
  induction cs generalizing n with
  | nil =>
    intro m hm
    simp [mkMembers] at hm
  | cons c rest ih =>
    intro m hm
    rw [mkMembers, List.mem_cons] at hm
    cases hm with
    | inl he => rw [he]; exact ⟨rfl, rfl⟩
    | inr ht => exact ih (n + 1) m ht

/-- Claim C5: create_user inserts the new user and exactly one
ChallengeMember row per existing PERSONAL-scope challenge, each linking the
new user to that challenge with completion flag false. -/
theorem create_user_enrolls_personal (db : DB) (user : UserCreate) :
    ∃ ms : List ChallengeMember,
      (create_user db user).1.challengeMembers = db.challengeMembers ++ ms ∧
      ms.length = (db.challenges.filter
        (fun c => decide (c.scope = ChallengeScope.PERSONAL))).length ∧
      ms.map (fun m => m.challenge_id) = (db.challenges.filter
        (fun c => decide (c.scope = ChallengeScope.PERSONAL))).map
          (fun c => c.challenge_id) ∧
      (ms.all (fun m => decide (m.user_id = (create_user db user).2.user_id) &&
        decide (m.is_completed = false))) = true ∧
      (create_user db user).1.users = db.users ++ [(create_user db user).2] := by
  refine ⟨mkMembers db.nextUserId db.nextMemberId
    (db.challenges.filter (fun c => decide (c.scope = ChallengeScope.PERSONAL))),
    rfl, mkMembers_length _ _ _, mkMembers_map_challenge_id _ _ _, ?_, rfl⟩
  rw [List.all_eq_true]
  intro m hm
  have hp := mkMembers_mem db.nextUserId db.nextMemberId
    (db.challenges.filter (fun c => decide (c.scope = ChallengeScope.PERSONAL))) m hm
  simp only [Bool.and_eq_true, decide_eq_true_eq]
  exact ⟨hp.1, hp.2⟩

def samplePersonalChallenge (i : Nat) : Challenge :=
  { challenge_id := i, title := ("walk week"), description := ("walk every day"),
    scope := ChallengeScope.PERSONAL, completion_type := ChallengeCompletionType.AUTO,
    target_mode := TransportMode.ANY, goal_type := ChallengeGoalType.TRIP_COUNT,
    goal_target_value := 7, start_at := 0, end_at := 100, reward := ("badge"),
    created_by := 1, status := ChallengeStatus.ACTIVE }

def sampleDB5 : DB :=
  { users := [], challenges := [samplePersonalChallenge 1, samplePersonalChallenge 2],
    challengeMembers := [], mobilityLogs := [], carbonFactors := [],
    creditsLedger := [], gardenWateringLogs := [], userGardens := [],
    userAchievements := [], notifications := [], ingestRaw := [],
    nextUserId := 1, nextMemberId := 1, nextLogId := 1 }

def sampleNewUser : UserCreate :=
  { username := ("alice"), email := ("alice at example"),
    password_hash := ("secret"), role := ("user"), user_group_id := none }

/-- Witness for C5 at a concrete state containing two PERSONAL-scope
challenges. -/
theorem create_user_enrolls_personal_witness :
    ∃ ms : List ChallengeMember,
      (create_user sampleDB5 sampleNewUser).1.challengeMembers =
        sampleDB5.challengeMembers ++ ms ∧
      ms.length = (sampleDB5.challenges.filter
        (fun c => decide (c.scope = ChallengeScope.PERSONAL))).length ∧
      ms.map (fun m => m.challenge_id) = (sampleDB5.challenges.filter
        (fun c => decide (c.scope = ChallengeScope.PERSONAL))).map
          (fun c => c.challenge_id) ∧
      (ms.all (fun m => decide (m.user_id = (create_user sampleDB5 sampleNewUser).2.user_id) &&
        decide (m.is_completed = false))) = true ∧
      (create_user sampleDB5 sampleNewUser).1.users =
        sampleDB5.users ++ [(create_user sampleDB5 sampleNewUser).2] :=
  create_user_enrolls_personal sampleDB5 sampleNewUser

theorem eraseP_no_match {α : Type} (p : α → Bool) :
    ∀ l : List α, l.countP p ≤ 1 → ∀ x ∈ l.eraseP p, ¬ p x := by
  intro l
  induction l with
  | nil =>
    intro _ x hx
    simp at hx
  | cons a t ih =>
    intro h x hx
    by_cases hp : p a
    · rw [List.eraseP_cons_of_pos hp] at hx
      rw [List.countP_cons, if_pos hp] at h
      have ht : t.countP p = 0 := by omega
      have := List.countP_eq_zero.mp ht
      exact this x hx
    · rw [List.eraseP_cons_of_neg hp] at hx
      rw [List.countP_cons, if_neg hp] at h
      rcases List.mem_cons.mp hx with he | hm
      · rw [he]; exact hp
      · exact ih (by omega) x hm

/-- Claim C7: delete_user on an existing user id removes every dependent
row for that id (MobilityLog, CreditsLedger, ChallengeMember,
GardenWateringLog, UserGarden, Challenge created by the user,
UserAchievement, Notification, raw-ingest) and then the user row; on a
non-existent id it returns none and performs no writes. -/
theorem delete_user_spec (db : DB) (user_id : Nat) :
    (db.users.find? (fun u => decide (u.user_id = user_id)) = none →
      delete_user db user_id = (db, none)) ∧
    (∀ u, db.users.find? (fun u => decide (u.user_id = user_id)) = some u →
      db.users.countP (fun v => decide (v.user_id = user_id)) ≤ 1 →
      (delete_user db user_id).2 = some u ∧
      (delete_user db user_id).1.users.find?
        (fun v => decide (v.user_id = user_id)) = none ∧
      (∀ l ∈ (delete_user db user_id).1.mobilityLogs, l.user_id ≠ user_id) ∧
      (∀ e ∈ (delete_user db user_id).1.creditsLedger, e.user_id ≠ user_id) ∧
      (∀ m ∈ (delete_user db user_id).1.challengeMembers, m.user_id ≠ user_id) ∧
      (∀ g ∈ (delete_user db user_id).1.gardenWateringLogs, g.user_id ≠ user_id) ∧
      (∀ g ∈ (delete_user db user_id).1.userGardens, g.user_id ≠ user_id) ∧
      (∀ c ∈ (delete_user db user_id).1.challenges, c.created_by ≠ user_id) ∧
      (∀ a ∈ (delete_user db user_id).1.userAchievements, a.user_id ≠ user_id) ∧
      (∀ n ∈ (delete_user db user_id).1.notifications, n.user_id ≠ user_id) ∧
      (∀ r ∈ (delete_user db user_id).1.ingestRaw, r.user_id ≠ user_id)) := by
  constructor
  · intro h
    simp only [delete_user, h]
  · intro u hu hcount
    have hval : (delete_user db user_id).2 = some u := by
      simp only [delete_user, hu]
    have husers : (delete_user db user_id).1.users =
        db.users.eraseP (fun v => decide (v.user_id = user_id)) := by
      simp only [delete_user, hu]
    refine ⟨hval, ?_, ?_, ?_, ?_, ?_, ?_, ?_, ?_, ?_, ?_⟩
    · rw [husers]
      exact List.find?_eq_none.mpr
        (eraseP_no_match (fun v => decide (v.user_id = user_id)) db.users hcount)
    all_goals
      simp only [delete_user, hu]
      intro x hx
      have := (List.mem_filter.mp hx).2
      simpa using this

def sampleVictim : User :=
  { user_id := 9, username := ("bob"), email := ("bob at example"),
    password_hash := ("pw"), role := ("user"), user_group_id := none }

def sampleOwnedChallenge : Challenge :=
  { samplePersonalChallenge 1 with created_by := 9 }

def sampleDB7 : DB :=
  { users := [sampleVictim],
    challenges := [sampleOwnedChallenge],
    challengeMembers := [{ member_id := 1, user_id := 9, challenge_id := 1, is_completed := false }],
    mobilityLogs := [sampleTrip 1],
    carbonFactors := [],
    creditsLedger := [{ entry_id := 1, user_id := 9, ref_log_id := none, type := CreditType.EARN, points := 2, reason := ("trip") }],
    gardenWateringLogs := [{ row_id := 1, user_id := 9 }],
    userGardens := [{ row_id := 1, user_id := 9 }],
    userAchievements := [{ row_id := 1, user_id := 9 }],
    notifications := [{ row_id := 1, user_id := 9 }],
    ingestRaw := [{ row_id := 1, user_id := 9 }],
    nextUserId := 10, nextMemberId := 2, nextLogId := 2 }

/-- Witness for C7 at a concrete state: deleting an existing user with one
row in every dependent table. -/
theorem delete_user_spec_witness :
    (delete_user sampleDB7 9).2 = some sampleVictim ∧
    (delete_user sampleDB7 9).1.users.find?
      (fun v => decide (v.user_id = 9)) = none :=
  ⟨((delete_user_spec sampleDB7 9).2 sampleVictim (by rfl) (by simp [sampleDB7, sampleVictim, List.countP_cons])).1,
   ((delete_user_spec sampleDB7 9).2 sampleVictim (by rfl) (by simp [sampleDB7, sampleVictim, List.countP_cons])).2.1⟩

/-- Claim C8: authenticate_user returns a user only when that user's
username or email equals the identifier and the stored credential exactly
equals the supplied one; it returns none when no user matches the
identifier or when the matched user's credential differs. -/
theorem authenticate_user_spec (db : DB) (username password : String) :
    (∀ u, authenticate_user db username password = some u →
      (u.username = username ∨ u.email = username) ∧ u.password_hash = password) ∧
    (db.users.find? (fun u => decide (u.username = username) ||
        decide (u.email = username)) = none →
      authenticate_user db username password = none) ∧
    (∀ u, db.users.find? (fun u => decide (u.username = username) ||
        decide (u.email = username)) = some u →
      u.password_hash ≠ password →
      authenticate_user db username password = none) := by
  refine ⟨?_, ?_, ?_⟩
  · intro u hu
    cases hf : db.users.find? (fun u => decide (u.username = username) ||
        decide (u.email = username)) with
    | none =>
      rw [authenticate_user, hf] at hu
      exact absurd hu (by simp)
    | some v =>
      simp only [authenticate_user, hf] at hu
      by_cases hp : v.password_hash = password
      · rw [if_pos hp] at hu
        have hv : v = u := by injection hu
        have hpred := List.find?_some hf
        rw [hv] at hpred hp
        simp only [Bool.or_eq_true, decide_eq_true_eq] at hpred
        exact ⟨hpred, hp⟩
      · rw [if_neg hp] at hu
        exact absurd hu (by simp)
  · intro h
    simp only [authenticate_user, h]
  · intro u hu hp
    simp only [authenticate_user, hu, if_neg hp]

def sampleAuthUser : User :=
  { user_id := 1, username := ("carol"), email := ("carol at example"),
    password_hash := ("hunter2"), role := ("user"), user_group_id := none }

def sampleDB8 : DB :=
  { users := [sampleAuthUser], challenges := [], challengeMembers := [],
    mobilityLogs := [], carbonFactors := [], creditsLedger := [],
    gardenWateringLogs := [], userGardens := [], userAchievements := [],
    notifications := [], ingestRaw := [], nextUserId := 2, nextMemberId := 1,
    nextLogId := 1 }

/-- Witness for C8 at a concrete state: a successful login returns a user
matching the identifier with the exact credential. -/
theorem authenticate_user_spec_witness :
    (sampleAuthUser.username = ("carol") ∨ sampleAuthUser.email = ("carol")) ∧
    sampleAuthUser.password_hash = ("hunter2") :=
  (authenticate_user_spec sampleDB8 ("carol") ("hunter2")).1 sampleAuthUser (by rfl)

/-- Claim C9: update_personal_challenge_progress never modifies stored
state and ignores its progress_increment argument: it returns none when
the membership row or the challenge row is absent, and the membership row
unchanged otherwise. -/
theorem update_personal_challenge_progress_spec (db : DB)
    (user_id challenge_id : Nat) (progress_increment : ℚ) :
    (update_personal_challenge_progress db user_id challenge_id
      progress_increment).1 = db ∧
    (∀ inc2 : ℚ, update_personal_challenge_progress db user_id challenge_id inc2 =
      update_personal_challenge_progress db user_id challenge_id
        progress_increment) ∧
    ((db.challengeMembers.find? (memberPred user_id challenge_id) = none ∨
      db.challenges.find? (fun c => decide (c.challenge_id = challenge_id)) = none) →
      (update_personal_challenge_progress db user_id challenge_id
        progress_increment).2 = none) ∧
    (∀ m, db.challengeMembers.find? (memberPred user_id challenge_id) = some m →
      (db.challenges.find? (fun c => decide (c.challenge_id = challenge_id))).isSome →
      (update_personal_challenge_progress db user_id challenge_id
        progress_increment).2 = some m) := by
  refine ⟨?_, ?_, ?_, ?_⟩
  · unfold update_personal_challenge_progress
    cases db.challengeMembers.find? (memberPred user_id challenge_id) with
    | none => rfl
    | some m =>
      cases db.challenges.find? (fun c => decide (c.challenge_id = challenge_id)) with
      | none => rfl
      | some c => rfl
  · intro inc2
    rfl
  · intro h
    unfold update_personal_challenge_progress
    cases hm : db.challengeMembers.find? (memberPred user_id challenge_id) with
    | none => rfl
    | some m =>
      cases hc : db.challenges.find?
          (fun c => decide (c.challenge_id = challenge_id)) with
      | none => rfl
      | some c =>
        rcases h with h1 | h2
        · rw [hm] at h1
          exact absurd h1 (by simp)
        · rw [hc] at h2
          exact absurd h2 (by simp)
  · intro m hm hc
    unfold update_personal_challenge_progress
    rw [hm]
    cases hc2 : db.challenges.find?
        (fun c => decide (c.challenge_id = challenge_id)) with
    | none =>
      rw [hc2] at hc
      exact absurd hc (by simp)
    | some c => rfl

def sampleDB9 : DB :=
  { users := [], challenges := [sampleChallenge3], challengeMembers := [sampleMember3],
    mobilityLogs := [], carbonFactors := [], creditsLedger := [],
    gardenWateringLogs := [], userGardens := [], userAchievements := [],
    notifications := [], ingestRaw := [], nextUserId := 2, nextMemberId := 2,
    nextLogId := 1 }

/-- Witness for C9 at a concrete state: both rows present, so the call
returns the membership row unchanged and leaves the state as it was. -/
theorem update_personal_challenge_progress_spec_witness :
    (update_personal_challenge_progress sampleDB9 1 3 (5 : ℚ)).1 = sampleDB9 ∧
    (update_personal_challenge_progress sampleDB9 1 3 (5 : ℚ)).2 =
      some sampleMember3 :=
  ⟨(update_personal_challenge_progress_spec sampleDB9 1 3 (5 : ℚ)).1,
   (update_personal_challenge_progress_spec sampleDB9 1 3 (5 : ℚ)).2.2.2
     sampleMember3 (by rfl) (by rfl)⟩

end Replanet
